import Mathlib

/-!
Verification of the single-file Flask contact-form website
(src/Corchet Website/python.py) against its specification.

The program keeps one SQLite table `messages(id, name, email, message,
created_at)` with `id INTEGER PRIMARY KEY AUTOINCREMENT`, and four routes:

* `home`     (GET /):          SELECT name, message, created_at FROM messages
                               ORDER BY id DESC LIMIT 5, rendered with the year;
* `about`    (GET /about):     static page, no database access;
* `contact`  (GET|POST /contact): on POST, strip the form fields, silently
                               re-render on empty name/message, otherwise
                               INSERT and redirect to /contact?sent=1; the
                               success flag is set when the query parameter
                               `sent` equals "1";
* `api_stats` (GET /api/stats): JSON object with the row count.

The table is modelled as a list of rows kept in insertion order together with
the AUTOINCREMENT counter; `ORDER BY id DESC` is modelled as insertion sort by
descending identifier, so that the embedding does not rely on any invariant of
the row list.  Request data (form fields, query string) and handler responses
are explicit values; the wall clock enters as a parameter.
-/

/-- Python's `str.strip()` with no argument: remove leading and trailing
whitespace.  (Lean's built-in `String.trim` is not kernel-reducible, so the
same function is defined on the character list.) -/
def pyStrip (s : String) : String :=
  String.mk (((s.data.dropWhile Char.isWhitespace).reverse.dropWhile
    Char.isWhitespace).reverse)

/-- One row of the `messages` table (python.py lines 53-59):
`id INTEGER PRIMARY KEY AUTOINCREMENT, name TEXT NOT NULL, email TEXT,
message TEXT NOT NULL, created_at TEXT NOT NULL`. -/
structure Message where
  id : Nat
  name : String
  email : String
  message : String
  created_at : String
deriving Repr, DecidableEq

/-- The state of the `messages` table: the rows in insertion order plus the
AUTOINCREMENT counter (SQLite assigns `max+1`, starting from 1, and with
AUTOINCREMENT never reuses an identifier). -/
structure Store where
  rows : List Message
  nextId : Nat
deriving Repr, DecidableEq

/-- The table just after `CREATE TABLE`: no rows, AUTOINCREMENT starts at 1. -/
def emptyStore : Store := { rows := [], nextId := 1 }

/-- `INSERT INTO messages (name, email, message, created_at) VALUES (?,?,?,?)`
(python.py lines 106-108): a fresh identifier is assigned by AUTOINCREMENT. -/
def insertMessage (s : Store) (name email message created_at : String) :
    Store :=
  { rows := s.rows ++
      [{ id := s.nextId, name := name, email := email,
         message := message, created_at := created_at }],
    nextId := s.nextId + 1 }

/-- `SELECT COUNT(*) FROM messages` (python.py line 120). -/
def countMessages (s : Store) : Nat := s.rows.length

/-- Comparison used by `ORDER BY id DESC`: a row sorts before another when its
identifier is at least as large. -/
def msgDescLe (a b : Message) : Prop := b.id ≤ a.id

instance : DecidableRel msgDescLe := fun a b => Nat.decLe b.id a.id

instance : IsTotal Message msgDescLe :=
  ⟨fun a b => Nat.le_total b.id a.id⟩

instance : IsTrans Message msgDescLe :=
  ⟨fun _ _ _ h1 h2 => Nat.le_trans h2 h1⟩

/-- `ORDER BY id DESC`: the rows sorted by descending identifier. -/
def sortByIdDesc (rows : List Message) : List Message :=
  rows.insertionSort msgDescLe

/-- `SELECT * FROM messages ORDER BY id DESC LIMIT limit`: the store
contract `recent(limit)` of the spec (used with limit 5 at python.py
line 86). -/
def recent (s : Store) (limit : Nat) : List Message :=
  (sortByIdDesc s.rows).take limit

/-- `init_db` (python.py lines 50-61): `CREATE TABLE IF NOT EXISTS messages`.
The database is `none` while the table does not exist; creating it yields the
empty table, and an existing table is left untouched. -/
def init_db (db : Option Store) : Option Store :=
  match db with
  | none => some emptyStore
  | some s => some s

/-- The columns the home page query projects:
`SELECT name, message, created_at` (python.py line 86). -/
structure HomeRow where
  name : String
  message : String
  created_at : String
deriving Repr, DecidableEq

/-- Modelled from the spec: `HOME_TEMPLATE` is referenced at python.py line 88
but its definition is missing from the source file, and §4.2 states the Page
Renderer is a pure function of its named inputs, so the rendered home page is
modelled as the record of those inputs (message list and year). -/
structure HomePage where
  messages : List HomeRow
  year : Nat
deriving Repr, DecidableEq

/-- The `home` handler (python.py lines 83-88): read the five most recent
rows, project name/message/created_at, and render them with the year. -/
def home (s : Store) (year : Nat) : Store × HomePage :=
  (s, { messages := (recent s 5).map
          (fun m => { name := m.name, message := m.message,
                      created_at := m.created_at }),
        year := year })

/-- Modelled from the spec: `ABOUT_TEMPLATE` is referenced at python.py line 92
but missing from the source file; §4.3 says the about page is static with the
current year, so it is modelled as the record of the renderer's inputs. -/
structure AboutPage where
  title : String
  year : Nat
deriving Repr, DecidableEq

/-- The `about` handler (python.py lines 90-92): renders the static page with
the year; it never touches the database. -/
def about (year : Nat) (s : Store) : Store × AboutPage :=
  (s, { title := "About", year := year })

/-- HTTP method of a `/contact` request. -/
inductive Method
  | GET
  | POST
deriving Repr, DecidableEq

/-- The submitted form: `request.form.get(k, '')` yields the field or `''`
when absent, modelled by `Option String` with default `""`. -/
structure ContactForm where
  name : Option String
  email : Option String
  message : Option String
deriving Repr, DecidableEq

/-- The query string of the request: `request.args.get('sent')` is `None`
when the parameter is absent. -/
structure ContactQuery where
  sent : Option String
deriving Repr, DecidableEq

/-- What the `contact` handler answers with: either
`redirect(url_for('contact') + '?sent=1')`, or the rendered contact page.
`CONTACT_TEMPLATE` is missing from the source file, so (modelled from the
spec, §4.2: the renderer is a pure function of its inputs) the rendered page
is represented by the success flag handed to the renderer. -/
inductive ContactResult
  | redirect (location : String)
  | render (success : Bool)
deriving Repr, DecidableEq

/-- The `contact` handler (python.py lines 94-114).  On POST the three form
fields are stripped; if name or message strips to empty the handler falls
through and re-renders (the `pass` branch), otherwise it inserts the row and
redirects.  On every rendering path `success` is true exactly when
`request.args.get('sent') == '1'`. -/
def contact (method : Method) (form : ContactForm) (query : ContactQuery)
    (now : String) (s : Store) : Store × ContactResult :=
  match method with
  | .POST =>
      let name := pyStrip (form.name.getD "")
      let email := pyStrip (form.email.getD "")
      let message := pyStrip (form.message.getD "")
      if name = "" ∨ message = "" then
        (s, .render (query.sent == some "1"))
      else
        (insertMessage s name email message now,
         .redirect "/contact?sent=1")
  | .GET => (s, .render (query.sent == some "1"))

/-- The JSON body returned by `/api/stats` (python.py line 122):
an object with the single field `messages`. -/
structure StatsResponse where
  messages : Nat
deriving Repr, DecidableEq

/-- The `api_stats` handler (python.py lines 117-122). -/
def api_stats (s : Store) : Store × StatsResponse :=
  (s, { messages := countMessages s })

/-- Well-formedness of reachable table states: identifiers are strictly
increasing along insertion order (hence unique), all identifiers are below
the AUTOINCREMENT counter, and every stored row has non-empty name and
message. -/
def StoreWF (s : Store) : Prop :=
  s.rows.Pairwise (fun a b => a.id < b.id) ∧
  (∀ m ∈ s.rows, m.id < s.nextId) ∧
  (∀ m ∈ s.rows, m.name ≠ "" ∧ m.message ≠ "")

/-- The store used in the spec's Scenario 3: three successful POST
submissions into an empty store. -/
def statsScenarioStore : Store :=
  (contact .POST { name := some "Carol", email := some "", message := some "Hey" }
    { sent := none } "2025-01-03"
    ((contact .POST { name := some "Bob", email := some "", message := some "Yo" }
      { sent := none } "2025-01-02"
      ((contact .POST { name := some "Alice", email := some "", message := some "Hi" }
        { sent := none } "2025-01-01" emptyStore).fst)).fst)).fst

/-! ### Basic facts about the sorted view of the table -/

theorem sortByIdDesc_perm (rows : List Message) :
    (sortByIdDesc rows).Perm rows :=
  List.perm_insertionSort msgDescLe rows

theorem sortByIdDesc_sorted (rows : List Message) :
    List.Sorted msgDescLe (sortByIdDesc rows) :=
  List.sorted_insertionSort msgDescLe rows

theorem sortByIdDesc_pairwise_ne (rows : List Message)
    (h : rows.Pairwise fun a b => a.id < b.id) :
    (sortByIdDesc rows).Pairwise fun a b => a.id ≠ b.id := by
  have hne : rows.Pairwise fun a b => a.id ≠ b.id :=
    h.imp fun hlt => Nat.ne_of_lt hlt
  have hsymm : ∀ {a b : Message}, a.id ≠ b.id → b.id ≠ a.id :=
    fun hab => Ne.symm hab
  exact (List.Perm.pairwise_iff @hsymm (sortByIdDesc_perm rows)).mpr hne

theorem sortByIdDesc_pairwise_gt (rows : List Message)
    (h : rows.Pairwise fun a b => a.id < b.id) :
    (sortByIdDesc rows).Pairwise fun a b => b.id < a.id := by
  have h1 : (sortByIdDesc rows).Pairwise msgDescLe := sortByIdDesc_sorted rows
  have h2 := sortByIdDesc_pairwise_ne rows h
  exact (h1.and h2).imp fun hab =>
    Nat.lt_of_le_of_ne hab.1 fun e => hab.2 e.symm

theorem sortByIdDesc_head_of_max (rows : List Message) (m : Message)
    (hm : m ∈ rows) (hmax : ∀ x ∈ rows, x ≠ m → x.id < m.id) :
    (sortByIdDesc rows).head? = some m := by
  have hperm := sortByIdDesc_perm rows
  have hsort := sortByIdDesc_sorted rows
  have hm' : m ∈ sortByIdDesc rows := hperm.mem_iff.mpr hm
  cases hl : sortByIdDesc rows with
  | nil => rw [hl] at hm'; cases hm'
  | cons a t =>
    rw [hl] at hm' hsort hperm
    rcases List.mem_cons.mp hm' with he | ht
    · rw [he]; rfl
    · have ha : a ∈ rows := hperm.subset (List.mem_cons_self a t)
      have hle : m.id ≤ a.id := List.rel_of_sorted_cons hsort m ht
      by_cases hcase : a = m
      · rw [hcase]; rfl
      · exact absurd hle (Nat.not_le.mpr (hmax a ha hcase))

theorem take_head_eq {α : Type} (l : List α) (n : Nat) (hn : 1 ≤ n) :
    (l.take n).head? = l.head? := by
  cases l with
  | nil => simp
  | cons a t =>
    cases n with
    | zero => omega
    | succ k => simp [List.take]

/-! ### Well-formedness of reachable states -/

theorem emptyStore_wf : StoreWF emptyStore := by
  refine ⟨List.Pairwise.nil, ?_, ?_⟩ <;> intro m hm <;> cases hm

theorem insertMessage_wf (s : Store) (name email msg ts : String)
    (hwf : StoreWF s) (hn : name ≠ "") (hm : msg ≠ "") :
    StoreWF (insertMessage s name email msg ts) := by
  obtain ⟨h1, h2, h3⟩ := hwf
  refine ⟨?_, ?_, ?_⟩
  · rw [insertMessage, List.pairwise_append]
    refine ⟨h1, List.pairwise_singleton _ _, ?_⟩
    intro a ha b hb
    rw [List.mem_singleton] at hb
    rw [hb]
    exact h2 a ha
  · intro m hmem
    rw [insertMessage, List.mem_append] at hmem
    rcases hmem with h | h
    · exact Nat.lt_succ_of_lt (h2 m h)
    · rw [List.mem_singleton] at h
      rw [h]
      exact Nat.lt_succ_self _
  · intro m hmem
    rw [insertMessage, List.mem_append] at hmem
    rcases hmem with h | h
    · exact h3 m h
    · rw [List.mem_singleton] at h
      rw [h]
      exact ⟨hn, hm⟩

/-! ### Unfolding lemmas for the contact handler -/

theorem contact_post_valid_eq (form : ContactForm) (query : ContactQuery)
    (now : String) (s : Store)
    (hn : pyStrip (form.name.getD "") ≠ "")
    (hm : pyStrip (form.message.getD "") ≠ "") :
    contact .POST form query now s =
      (insertMessage s (pyStrip (form.name.getD ""))
        (pyStrip (form.email.getD "")) (pyStrip (form.message.getD "")) now,
       ContactResult.redirect "/contact?sent=1") := by
  simp [contact, hn, hm]

theorem contact_post_invalid_eq (form : ContactForm) (query : ContactQuery)
    (now : String) (s : Store)
    (h : pyStrip (form.name.getD "") = "" ∨
      pyStrip (form.message.getD "") = "") :
    contact .POST form query now s =
      (s, ContactResult.render (query.sent == some "1")) := by
  rcases h with h | h <;> simp [contact, h]

theorem recent_head_after_insert (s : Store) (hwf : StoreWF s)
    (name email msg ts : String) (n : Nat) (hn : 1 ≤ n) :
    (recent (insertMessage s name email msg ts) n).head? =
      some { id := s.nextId, name := name, email := email,
             message := msg, created_at := ts } := by
  rw [recent, take_head_eq _ n hn]
  apply sortByIdDesc_head_of_max
  · exact List.mem_append_right _ (List.mem_singleton_self _)
  · intro x hx hne
    rcases List.mem_append.mp hx with h | h
    · exact hwf.2.1 x h
    · rw [List.mem_singleton] at h
      exact absurd h hne

/-- C1: for every POST /contact submission in which both the stripped name
and the stripped message are non-empty, the row count increases by exactly 1
and the newly inserted Message is the first element of recent(n) for every
n ≥ 1. -/
theorem contact_valid_post_inserts (form : ContactForm) (query : ContactQuery)
    (now : String) (s : Store) (hwf : StoreWF s)
    (hn : pyStrip (form.name.getD "") ≠ "")
    (hm : pyStrip (form.message.getD "") ≠ "") :
    countMessages (contact .POST form query now s).fst = countMessages s + 1 ∧
    ∀ n, 1 ≤ n → (recent (contact .POST form query now s).fst n).head? =
      some { id := s.nextId, name := pyStrip (form.name.getD ""),
             email := pyStrip (form.email.getD ""),
             message := pyStrip (form.message.getD ""), created_at := now } := by
  rw [contact_post_valid_eq form query now s hn hm]
  constructor
  · simp [countMessages, insertMessage]
  · intro n hn1
    exact recent_head_after_insert s hwf _ _ _ _ n hn1

theorem contact_valid_post_inserts_witness :
    StoreWF emptyStore ∧
    pyStrip ((some "Alice" : Option String).getD "") ≠ "" ∧
    countMessages (contact .POST
      { name := some "Alice", email := some "", message := some "Hi" }
      { sent := none } "2025-01-01" emptyStore).fst
      = countMessages emptyStore + 1 ∧
    (recent (contact .POST
      { name := some "Alice", email := some "", message := some "Hi" }
      { sent := none } "2025-01-01" emptyStore).fst 1).head? =
      some { id := emptyStore.nextId,
             name := pyStrip ((some "Alice" : Option String).getD ""),
             email := pyStrip ((some "" : Option String).getD ""),
             message := pyStrip ((some "Hi" : Option String).getD ""),
             created_at := "2025-01-01" } :=
  ⟨emptyStore_wf, by decide,
   (contact_valid_post_inserts _ _ _ _ emptyStore_wf (by decide) (by decide)).1,
   (contact_valid_post_inserts _ _ _ _ emptyStore_wf (by decide) (by decide)).2
     1 (by decide)⟩

/-- C2: for every POST /contact submission in which the name or the message
strips to empty, no Message is persisted: the store is unchanged, the count
is unchanged, and the response is a rendered page (not a redirect). -/
theorem contact_invalid_post_noop (form : ContactForm) (query : ContactQuery)
    (now : String) (s : Store)
    (h : pyStrip (form.name.getD "") = "" ∨
      pyStrip (form.message.getD "") = "") :
    (contact .POST form query now s).fst = s ∧
    countMessages (contact .POST form query now s).fst = countMessages s ∧
    ∃ b, (contact .POST form query now s).snd = ContactResult.render b := by
  rw [contact_post_invalid_eq form query now s h]
  exact ⟨rfl, rfl, _, rfl⟩

theorem contact_invalid_post_noop_witness :
    pyStrip ((some "  " : Option String).getD "") = "" ∧
    (contact .POST { name := some "  ", email := none, message := some "Hi" }
      { sent := none } "2025-01-01" emptyStore).fst = emptyStore :=
  ⟨by decide,
   (contact_invalid_post_noop _ _ _ _ (Or.inl (by decide))).1⟩

/-- C3: recent(limit) returns at most limit rows, in strictly descending
identifier order, and returns the empty sequence when the table is empty. -/
theorem recent_bounded_and_sorted (s : Store) (limit : Nat)
    (hwf : StoreWF s) :
    (recent s limit).length ≤ limit ∧
    (recent s limit).Pairwise (fun a b => b.id < a.id) ∧
    (s.rows = [] → recent s limit = []) := by
  refine ⟨?_, ?_, ?_⟩
  · rw [recent, List.length_take]
    exact Nat.min_le_left _ _
  · exact (sortByIdDesc_pairwise_gt s.rows hwf.1).sublist
      (List.take_sublist _ _)
  · intro h
    rw [recent, h]
    exact List.take_nil

theorem recent_bounded_and_sorted_witness :
    StoreWF (insertMessage (insertMessage emptyStore "a" "" "b" "t1")
      "c" "" "d" "t2") ∧
    (recent (insertMessage (insertMessage emptyStore "a" "" "b" "t1")
      "c" "" "d" "t2") 1).length ≤ 1 ∧
    (recent (insertMessage (insertMessage emptyStore "a" "" "b" "t1")
      "c" "" "d" "t2") 1).Pairwise (fun a b => b.id < a.id) :=
  have hwf : StoreWF (insertMessage (insertMessage emptyStore "a" "" "b" "t1")
      "c" "" "d" "t2") :=
    insertMessage_wf _ _ _ _ _
      (insertMessage_wf _ _ _ _ _ emptyStore_wf (by decide) (by decide))
      (by decide) (by decide)
  ⟨hwf, (recent_bounded_and_sorted _ 1 hwf).1,
    (recent_bounded_and_sorted _ 1 hwf).2.1⟩

/-- C4: init_db is idempotent: running it twice is the same as running it
once, and after one run the messages table exists. -/
theorem init_db_idempotent (db : Option Store) :
    init_db (init_db db) = init_db db ∧ ∃ s, init_db db = some s := by
  cases db <;> exact ⟨rfl, _, rfl⟩

/-- C5: every POST /contact submission with non-empty stripped name and
message answers with a redirect to /contact?sent=1, not a rendered page. -/
theorem contact_valid_post_redirect (form : ContactForm)
    (query : ContactQuery) (now : String) (s : Store)
    (hn : pyStrip (form.name.getD "") ≠ "")
    (hm : pyStrip (form.message.getD "") ≠ "") :
    (contact .POST form query now s).snd =
      ContactResult.redirect "/contact?sent=1" := by
  rw [contact_post_valid_eq form query now s hn hm]

theorem contact_valid_post_redirect_witness :
    pyStrip ((some "Alice" : Option String).getD "") ≠ "" ∧
    (contact .POST { name := some "Alice", email := some "", message := some "Hi" }
      { sent := none } "2025-01-01" emptyStore).snd =
      ContactResult.redirect "/contact?sent=1" :=
  ⟨by decide, contact_valid_post_redirect _ _ _ _ (by decide) (by decide)⟩

/-- C6: GET / renders the home page from the projection of recent(5)
together with the supplied year, leaves the store unchanged, and recent(5)
holds at most 5 rows in strictly descending identifier order, each of which
has a larger identifier than every row the LIMIT clause cut off. -/
theorem home_renders_recent (s : Store) (yr : Nat) (hwf : StoreWF s) :
    (home s yr).fst = s ∧
    (home s yr).snd.year = yr ∧
    (home s yr).snd.messages = (recent s 5).map
      (fun m => { name := m.name, message := m.message,
                  created_at := m.created_at }) ∧
    (recent s 5).length ≤ 5 ∧
    (recent s 5).Pairwise (fun a b => b.id < a.id) ∧
    (∀ x ∈ recent s 5, ∀ z ∈ (sortByIdDesc s.rows).drop 5, z.id < x.id) := by
  refine ⟨rfl, rfl, rfl, ?_, ?_, ?_⟩
  · rw [recent, List.length_take]
    exact Nat.min_le_left _ _
  · exact (sortByIdDesc_pairwise_gt s.rows hwf.1).sublist
      (List.take_sublist _ _)
  · have hall := sortByIdDesc_pairwise_gt s.rows hwf.1
    rw [← List.take_append_drop 5 (sortByIdDesc s.rows),
      List.pairwise_append] at hall
    exact fun x hx z hz => hall.2.2 x hx z hz

theorem home_renders_recent_witness :
    StoreWF emptyStore ∧
    (home emptyStore 2025).fst = emptyStore ∧
    (home emptyStore 2025).snd.year = 2025 :=
  ⟨emptyStore_wf, (home_renders_recent emptyStore 2025 emptyStore_wf).1,
   (home_renders_recent emptyStore 2025 emptyStore_wf).2.1⟩

/-- C7: GET /api/stats leaves the store unchanged and returns the JSON
object whose single field `messages` is the row count; in particular after
the three successful submissions of Scenario 3 it returns 3. -/
theorem api_stats_messages (s : Store) :
    (api_stats s).fst = s ∧
    (api_stats s).snd = { messages := countMessages s } ∧
    (api_stats statsScenarioStore).snd = { messages := 3 } :=
  ⟨rfl, rfl, by decide⟩

/-- C8: every stored row keeps a unique identifier below the AUTOINCREMENT
counter and non-empty name and message; handlers other than a valid POST
/contact leave the store untouched, and the contact handler only ever
appends (no row is updated or deleted). -/
theorem store_invariants_preserved (s : Store) (method : Method)
    (form : ContactForm) (query : ContactQuery) (now : String) (yr : Nat)
    (hwf : StoreWF s) :
    StoreWF (contact method form query now s).fst ∧
    (∃ t, (contact method form query now s).fst.rows = s.rows ++ t) ∧
    (home s yr).fst = s ∧
    (about yr s).fst = s ∧
    (api_stats s).fst = s ∧
    init_db (some s) = some s := by
  refine ⟨?_, ?_, rfl, rfl, rfl, rfl⟩
  · cases method with
    | GET => exact hwf
    | POST =>
      by_cases h1 : pyStrip (form.name.getD "") = ""
      · rw [contact_post_invalid_eq form query now s (Or.inl h1)]
        exact hwf
      · by_cases h2 : pyStrip (form.message.getD "") = ""
        · rw [contact_post_invalid_eq form query now s (Or.inr h2)]
          exact hwf
        · rw [contact_post_valid_eq form query now s h1 h2]
          exact insertMessage_wf s _ _ _ _ hwf h1 h2
  · cases method with
    | GET => exact ⟨[], (List.append_nil s.rows).symm⟩
    | POST =>
      by_cases h1 : pyStrip (form.name.getD "") = ""
      · rw [contact_post_invalid_eq form query now s (Or.inl h1)]
        exact ⟨[], (List.append_nil s.rows).symm⟩
      · by_cases h2 : pyStrip (form.message.getD "") = ""
        · rw [contact_post_invalid_eq form query now s (Or.inr h2)]
          exact ⟨[], (List.append_nil s.rows).symm⟩
        · rw [contact_post_valid_eq form query now s h1 h2]
          exact ⟨_, rfl⟩

theorem store_invariants_preserved_witness :
    StoreWF emptyStore ∧
    StoreWF (contact .POST
      { name := some "Alice", email := some "", message := some "Hi" }
      { sent := none } "2025-01-01" emptyStore).fst :=
  ⟨emptyStore_wf,
   (store_invariants_preserved emptyStore .POST
     { name := some "Alice", email := some "", message := some "Hi" }
     { sent := none } "2025-01-01" 2025 emptyStore_wf).1⟩

/-- C9: GET /about leaves the store unchanged, and the page it renders does
not depend on the store at all (the handler performs no store access). -/
theorem about_no_store_access (s : Store) (yr : Nat) :
    (about yr s).fst = s ∧
    ∀ s2 : Store, (about yr s2).snd = (about yr s).snd :=
  ⟨rfl, fun _ => rfl⟩

/-- C10 (counterexample): a POST whose validation fails (empty name) but
whose query string carries sent=1 is rendered with success flag true, while
the claim requires the flag to be false after every failed-validation
POST; the store is still left unchanged. -/
theorem contact_sent_flag_counterexample :
    pyStrip ((some "" : Option String).getD "") = "" ∧
    (contact .POST { name := some "", email := some "", message := some "Hi" }
      { sent := some "1" } "2025-01-01" emptyStore).snd =
      ContactResult.render true ∧
    (contact .POST { name := some "", email := some "", message := some "Hi" }
      { sent := some "1" } "2025-01-01" emptyStore).fst = emptyStore := by
  refine ⟨rfl, ?_, ?_⟩ <;> decide

/-- C10 (amended): on every rendering path of the contact handler — GET, or
a POST whose name or message strips to empty — the success flag is true
exactly when the sent query parameter equals the string "1"; in particular
it is false for every other present value of sent. -/
theorem contact_sent_flag (method : Method) (form : ContactForm)
    (query : ContactQuery) (now : String) (s : Store)
    (h : method = Method.GET ∨ pyStrip (form.name.getD "") = "" ∨
      pyStrip (form.message.getD "") = "") :
    (contact method form query now s).snd =
      ContactResult.render (query.sent == some "1") := by
  cases method with
  | GET => rfl
  | POST =>
    rcases h with h | h
    · cases h
    · rw [contact_post_invalid_eq form query now s h]

theorem contact_sent_flag_witness :
    pyStrip ((none : Option String).getD "") = "" ∧
    (contact .POST { name := none, email := none, message := some "x" }
      { sent := some "true" } "2025-01-01" emptyStore).snd =
      ContactResult.render false :=
  ⟨rfl,
   (contact_sent_flag .POST { name := none, email := none, message := some "x" }
     { sent := some "true" } "2025-01-01" emptyStore
     (Or.inr (Or.inl rfl))).trans
     (congrArg ContactResult.render (by decide))⟩
